import Mathlib

/-!
Shallow embedding of `zato-server/src/zato/server/connection/connector/__init__.py`
(classes `Connector` and `ConnectorStore`), with the line numbers of that file
cited next to each definition.

Modelling notes:
* gevent greenlets are not modelled; the base class declares
  `start_in_greenlet = False`, so `start` runs `_start_loop` synchronously and
  every execution here is sequential.
* The subclass hook `_start` is modelled by a stub `Nat → StartOutcome` giving
  the outcome of the n-th hook invocation on a connector (counted by the ghost
  field `startCalls`): the hook may raise an `Exception` (`raiseExc`, caught by
  the `except Exception` branch inside `_start_loop`), return without
  connecting (`noConnect`), or set `self.is_connected = True` (`connect`).
* `while` loops are modelled with explicit fuel; on every concrete run below
  the loop exits through its own condition before the fuel runs out.
* `logger.warn` calls are recorded as a list of `WarnKind` events and `sleep(2)`
  pauses are counted, so the logging and pausing behaviour is observable.
* An exception propagating to a caller is an explicit `Bool` or `Except` value.
-/

namespace Zato

/-- The per-connector configuration record (the `config` bunch read by
`__init__`, `send` and `edit`; spec section 3, "ConnectorConfig"). -/
structure Config where
  id : Nat
  name : String
  is_active : Bool
  address : String
  service_name : Option String
  prev_address : Option String
deriving DecidableEq

/-- State of one `Connector` object (lines 71-89).  `objId` is a ghost field
standing for Python object identity; `startCalls` is a ghost counter of the
invocations of the subclass `_start` hook on this object.  The RLock is not
modelled (executions are sequential); `conn` is omitted because no modelled
operation reads or writes it. -/
structure Connector where
  objId : Nat
  name : String
  type : String
  config : Config
  service : Option String
  id : Nat
  is_active : Bool
  is_inactive : Bool
  is_connected : Bool
  keep_connecting : Bool
  keep_running : Bool
  startCalls : Nat
deriving DecidableEq

/-- `Connector.__init__` (lines 71-89): `is_active` and `is_inactive` are
snapshots of `config.is_active` taken at construction time. -/
def Connector.init (objId : Nat) (name type : String) (config : Config) : Connector :=
  { objId := objId, name := name, type := type, config := config,
    service := config.service_name, id := config.id,
    is_active := config.is_active, is_inactive := !config.is_active,
    is_connected := false, keep_connecting := true, keep_running := false,
    startCalls := 0 }

/-- Outcome of one invocation of the subclass `_start` hook. -/
inductive StartOutcome where
  | raiseExc
  | noConnect
  | connect
deriving DecidableEq

/-- Kinds of `logger.warn` events emitted by `_start_loop`: the
`logger.warn(format_exc(e))` in the `except Exception` branch (line 116), and
the rate-limited "Could not connect" warning (lines 121-123). -/
inductive WarnKind where
  | traceback
  | couldNotConnect
deriving DecidableEq

/-- State threaded through `_start_loop`: the connector plus the local
`attempts` counter, the warn-level log trace, and the number of `sleep(2)`
pauses performed. -/
structure LoopSt where
  conn : Connector
  attempts : Nat
  warns : List WarnKind
  sleeps : Nat
deriving DecidableEq

/-- One iteration of the inner `while not self.is_connected` body of
`_start_loop` (lines 112-123), given the outcome of this `_start` call:
`try: self._start() / except Exception: logger.warn(format_exc(e)); sleep(2)`,
then `attempts += 1`, then the rate-limited warning when
`attempts % log_each == 0` with `log_each = 10`.  Note that `attempts` is
incremented and the rate-limited warning is considered on every iteration,
including the one whose `_start` call succeeds. -/
def startIter (outcome : StartOutcome) (s : LoopSt) : LoopSt :=
  let s := { s with conn := { s.conn with startCalls := s.conn.startCalls + 1 } }
  let s :=
    match outcome with
    | StartOutcome.raiseExc =>
        { s with warns := s.warns ++ [WarnKind.traceback], sleeps := s.sleeps + 1 }
    | StartOutcome.noConnect => s
    | StartOutcome.connect => { s with conn := { s.conn with is_connected := true } }
  let s := { s with attempts := s.attempts + 1 }
  if s.attempts % 10 = 0 then { s with warns := s.warns ++ [WarnKind.couldNotConnect] } else s

/-- `Connector._start_loop` (lines 102-129), sequentialised: the nested
`while self.keep_connecting: while not self.is_connected: ...` loops, with the
`self.keep_connecting = False` assignment that runs after the inner loop
exits.  `fuel` bounds the number of loop steps (the Python loop may run
forever); on every run proved about below the loop exits through its own
condition before the fuel runs out.  `stub n` is the outcome of the (n+1)-th
`_start` invocation on this connector.  The `except KeyboardInterrupt` arm
models an external interrupt and cannot fire in a sequential execution. -/
def startLoopFuel (stub : Nat → StartOutcome) : Nat → LoopSt → LoopSt
  | 0, s => s
  | fuel + 1, s =>
      if s.conn.keep_connecting then
        if s.conn.is_connected then
          startLoopFuel stub fuel { s with conn := { s.conn with keep_connecting := false } }
        else
          startLoopFuel stub fuel (startIter (stub s.conn.startCalls) s)
      else s

/-- `Connector.start` (lines 168-178) for the base class
(`start_in_greenlet = False`): sets `keep_running = True`, then runs
`_start_loop` synchronously with a fresh `attempts` counter.  The surrounding
`except Exception` has nothing left to catch here: every `Exception` the hook
raises is already caught inside `_start_loop`, so `start` is total. -/
def Connector.start (stub : Nat → StartOutcome) (fuel : Nat) (c : Connector) : LoopSt :=
  startLoopFuel stub fuel
    { conn := { c with keep_running := true }, attempts := 0, warns := [], sleeps := 0 }

/-- `Connector.stop` (lines 182-186): sets `keep_connecting = False` and
`keep_running = False`, then calls the subclass `_stop` hook.  `stop` contains
no `try/except`, so when the hook raises, the exception propagates to the
caller; the returned `Bool` is true exactly when an exception propagated.  The
base-class `_stop` (lines 212-214) is a no-op that never raises
(`stopHookRaises = false`). -/
def Connector.stop (stopHookRaises : Bool) (c : Connector) : Connector × Bool :=
  ({ c with keep_connecting := false, keep_running := false }, stopHookRaises)

/-- `Connector.restart` (lines 190-194): `self.stop()` then `self.start()`,
with the base-class `_stop` hook. -/
def Connector.restart (stub : Nat → StartOutcome) (fuel : Nat) (c : Connector) : Connector :=
  (Connector.start stub fuel (Connector.stop false c).1).conn

/-- `Connector.edit` together with the default `_edit` (lines 198-208): stash
the previous address into `config.prev_address`, replace `name` and `config`
wholesale, then `restart` — all without touching `is_active`/`is_inactive`. -/
def Connector.edit (stub : Nat → StartOutcome) (fuel : Nat)
    (_old_name : String) (config : Config) (c : Connector) : Connector :=
  let config := { config with prev_address := some c.config.address }
  Connector.restart stub fuel { c with name := config.name, config := config }

/-- Result of `Connector.send` (lines 143-147): either the `Inactive`
exception is raised, or the message is delegated to the subclass `_send`
primitive. -/
inductive SendResult where
  | inactive : SendResult
  | delegated : String → SendResult
deriving DecidableEq

/-- `Connector.send`: under the connector's lock, raise `Inactive` when
`self.is_inactive` holds, else delegate `msg` to `self._send(msg, ...)`.  The
lock itself is not modelled (executions here are sequential). -/
def Connector.send (c : Connector) (msg : String) : SendResult :=
  if c.is_inactive then SendResult.inactive else SendResult.delegated msg

/-- Store-level failure: a Python `KeyError` on a missing registry key,
surfaced as the spec's NotFound condition. -/
inductive StoreErr where
  | notFound
deriving DecidableEq

/-- `ConnectorStore` (lines 218-225).  The `connectors` dict is modelled as an
association list with unique keys; `nextId` is a ghost counter handing out
object identities to newly constructed connectors. -/
structure ConnectorStore where
  type : String
  connectors : List (String × Connector)
  nextId : Nat
deriving DecidableEq

/-- Python dict lookup `d[k]`, as an `Option` (`none` models the `KeyError`). -/
def dictLookup (k : String) : List (String × Connector) → Option Connector
  | [] => none
  | (k', v) :: rest => if k' = k then some v else dictLookup k rest

/-- Python dict assignment `d[k] = v`: replace in place when the key exists,
else append. -/
def dictInsert (k : String) (v : Connector) :
    List (String × Connector) → List (String × Connector)
  | [] => [(k, v)]
  | (k', v') :: rest =>
      if k' = k then (k, v) :: rest else (k', v') :: dictInsert k v rest

/-- The key-removal side of Python `d.pop(k)` / `del d[k]`: drop every pair
with key `k`.  Dict keys are unique, so at most one pair is dropped on any
store reachable through the operations below. -/
def dictRemove (k : String) (m : List (String × Connector)) : List (String × Connector) :=
  m.filter (fun p => p.1 != k)

/-- `ConnectorStore.create` (lines 227-229): construct a connector of the
store's class and insert it under `name`, overwriting any existing entry. -/
def ConnectorStore.create (name : String) (config : Config) (st : ConnectorStore) :
    ConnectorStore :=
  { st with
    connectors := dictInsert name (Connector.init st.nextId name st.type config) st.connectors,
    nextId := st.nextId + 1 }

/-- `ConnectorStore.edit` (lines 231-234):
`self.connectors[old_name].edit(old_name, config)` (a `KeyError` — NotFound —
when `old_name` is absent), then
`self.connectors[config.name] = self.connectors.pop(old_name)`.  The popped
value is the same, now-updated object, so the model looks it up once, updates
it, removes the old key and inserts the updated object under the new key. -/
def ConnectorStore.edit (stub : Nat → StartOutcome) (fuel : Nat)
    (old_name : String) (config : Config) (st : ConnectorStore) :
    Except StoreErr ConnectorStore :=
  match dictLookup old_name st.connectors with
  | none => Except.error StoreErr.notFound
  | some c =>
      let c := Connector.edit stub fuel old_name config c
      Except.ok
        { st with connectors := dictInsert config.name c (dictRemove old_name st.connectors) }

/-- `ConnectorStore.delete` (lines 236-239): `self.connectors[name].stop()`
(the `KeyError` — NotFound — fires before any mutation when `name` is absent),
then `del self.connectors[name]`.  The third component is ghost output: the
state of the stopped, now-unreferenced connector object. -/
def ConnectorStore.delete (name : String) (st : ConnectorStore) :
    ConnectorStore × Option StoreErr × Option Connector :=
  match dictLookup name st.connectors with
  | none => (st, some StoreErr.notFound, none)
  | some c =>
      ({ st with connectors := dictRemove name st.connectors }, none,
        some (Connector.stop false c).1)

/-- `ConnectorStore.invoke` (lines 251-252): look the connector up by name
(`KeyError` — NotFound) and forward to its subclass `invoke` entry point; the
forwarding is opaque to the base class, so the looked-up connector is
returned. -/
def ConnectorStore.invoke (name : String) (st : ConnectorStore) : Except StoreErr Connector :=
  match dictLookup name st.connectors with
  | none => Except.error StoreErr.notFound
  | some c => Except.ok c

/-- A lifecycle operation applied to a connector after construction (the
subclass `_stop` hook being the base-class no-op). -/
inductive Op where
  | start (stub : Nat → StartOutcome) (fuel : Nat)
  | stop
  | restart (stub : Nat → StartOutcome) (fuel : Nat)
  | edit (stub : Nat → StartOutcome) (fuel : Nat) (old_name : String) (config : Config)

/-- Apply one lifecycle operation. -/
def applyOp (op : Op) (c : Connector) : Connector :=
  match op with
  | Op.start stub fuel => (Connector.start stub fuel c).conn
  | Op.stop => (Connector.stop false c).1
  | Op.restart stub fuel => Connector.restart stub fuel c
  | Op.edit stub fuel old config => Connector.edit stub fuel old config c

/-- Apply a sequence of lifecycle operations, oldest first. -/
def applyOps (ops : List Op) (c : Connector) : Connector :=
  ops.foldl (fun c op => applyOp op c) c

/-- Hook stub that fails `m` times by returning without connecting, then
connects. -/
def noConnStub (m : Nat) : Nat → StartOutcome :=
  fun n => if n < m then StartOutcome.noConnect else StartOutcome.connect

/-- Hook stub that fails `m` times by raising, then connects. -/
def raiseStub (m : Nat) : Nat → StartOutcome :=
  fun n => if n < m then StartOutcome.raiseExc else StartOutcome.connect

/-- Hook stub that always raises. -/
def alwaysRaise : Nat → StartOutcome := fun _ => StartOutcome.raiseExc

/-- A sample active configuration. -/
def cfgActive : Config :=
  { id := 1, name := "alpha", is_active := true, address := "addr-1",
    service_name := some "svc", prev_address := none }

/-- A sample inactive configuration (note its `name` is `"beta"`). -/
def cfgInactive : Config :=
  { id := 2, name := "beta", is_active := false, address := "addr-2",
    service_name := none, prev_address := none }

/-! Basic lemmas about the reconnect loop. -/

/-- When `keep_connecting` is already false the loop body never runs: the
outermost `while` guard fails immediately. -/
theorem startLoopFuel_noop (stub : Nat → StartOutcome) (fuel : Nat) (s : LoopSt)
    (h : s.conn.keep_connecting = false) : startLoopFuel stub fuel s = s := by
  cases fuel with
  | zero => rfl
  | succ n => simp [startLoopFuel, h]

/-- Unfolding the loop one step when it is still trying to connect. -/
theorem startLoopFuel_step (stub : Nat → StartOutcome) (fuel : Nat) (s : LoopSt)
    (h1 : s.conn.keep_connecting = true) (h2 : s.conn.is_connected = false) :
    startLoopFuel stub (fuel + 1) s =
      startLoopFuel stub fuel (startIter (stub s.conn.startCalls) s) := by
  simp [startLoopFuel, h1, h2]

/-- Unfolding the loop one step when the connection has been established: the
inner loop exits and `keep_connecting` is cleared. -/
theorem startLoopFuel_connected (stub : Nat → StartOutcome) (fuel : Nat) (s : LoopSt)
    (h1 : s.conn.keep_connecting = true) (h2 : s.conn.is_connected = true) :
    startLoopFuel stub (fuel + 1) s =
      startLoopFuel stub fuel { s with conn := { s.conn with keep_connecting := false } } := by
  simp [startLoopFuel, h1, h2]

/-- One raising `_start` attempt: traceback warn, one `sleep(2)`, attempt
counter bump, plus the rate-limited warning when the new count is a multiple
of 10. -/
theorem startIter_raiseExc (s : LoopSt) :
    startIter StartOutcome.raiseExc s =
      { conn := { s.conn with startCalls := s.conn.startCalls + 1 },
        attempts := s.attempts + 1,
        warns :=
          if (s.attempts + 1) % 10 = 0 then
            (s.warns ++ [WarnKind.traceback]) ++ [WarnKind.couldNotConnect]
          else s.warns ++ [WarnKind.traceback],
        sleeps := s.sleeps + 1 } := by
  by_cases h : (s.attempts + 1) % 10 = 0 <;> simp [startIter, h]

/-- One `_start` attempt that returns without connecting: no warn of its own,
no pause, attempt counter bump, plus the rate-limited warning when the new
count is a multiple of 10. -/
theorem startIter_noConnect (s : LoopSt) :
    startIter StartOutcome.noConnect s =
      { conn := { s.conn with startCalls := s.conn.startCalls + 1 },
        attempts := s.attempts + 1,
        warns :=
          if (s.attempts + 1) % 10 = 0 then s.warns ++ [WarnKind.couldNotConnect] else s.warns,
        sleeps := s.sleeps } := by
  by_cases h : (s.attempts + 1) % 10 = 0 <;> simp [startIter, h]

/-- One successful `_start` attempt: sets `is_connected`, bumps the attempt
counter, and still considers the rate-limited warning. -/
theorem startIter_connect (s : LoopSt) :
    startIter StartOutcome.connect s =
      { conn := { s.conn with startCalls := s.conn.startCalls + 1, is_connected := true },
        attempts := s.attempts + 1,
        warns :=
          if (s.attempts + 1) % 10 = 0 then s.warns ++ [WarnKind.couldNotConnect] else s.warns,
        sleeps := s.sleeps } := by
  by_cases h : (s.attempts + 1) % 10 = 0 <;> simp [startIter, h]

/-- The loop never increases `keep_connecting` from false to true. -/
theorem startLoopFuel_keep_connecting (stub : Nat → StartOutcome) (fuel : Nat) (s : LoopSt)
    (h : (startLoopFuel stub fuel s).conn.keep_connecting = true) :
    s.conn.keep_connecting = true := by
  by_cases hkc : s.conn.keep_connecting = true
  · exact hkc
  · rw [startLoopFuel_noop stub fuel s (by simpa using hkc)] at h
    exact h

/-- The loop never decreases the ghost `_start`-invocation counter. -/
theorem startLoopFuel_startCalls_le (stub : Nat → StartOutcome) :
    ∀ (fuel : Nat) (s : LoopSt),
      s.conn.startCalls ≤ (startLoopFuel stub fuel s).conn.startCalls := by
  intro fuel
  induction fuel with
  | zero => intro s; exact Nat.le_refl _
  | succ n ih =>
      intro s
      by_cases h1 : s.conn.keep_connecting = true
      · by_cases h2 : s.conn.is_connected = true
        · rw [startLoopFuel_connected stub n s h1 h2]
          exact ih { s with conn := { s.conn with keep_connecting := false } }
        · rw [startLoopFuel_step stub n s h1 (by simpa using h2)]
          refine Nat.le_trans ?_ (ih (startIter (stub s.conn.startCalls) s))
          cases hst : stub s.conn.startCalls
          · rw [startIter_raiseExc]; exact Nat.le_succ _
          · rw [startIter_noConnect]; exact Nat.le_succ _
          · rw [startIter_connect]; exact Nat.le_succ _
      · rw [startLoopFuel_noop stub _ s (by simpa using h1)]

/-- The loop never touches the `is_inactive` snapshot. -/
theorem startLoopFuel_is_inactive (stub : Nat → StartOutcome) :
    ∀ (fuel : Nat) (s : LoopSt),
      (startLoopFuel stub fuel s).conn.is_inactive = s.conn.is_inactive := by
  intro fuel
  induction fuel with
  | zero => intro s; rfl
  | succ n ih =>
      intro s
      by_cases h1 : s.conn.keep_connecting = true
      · by_cases h2 : s.conn.is_connected = true
        · rw [startLoopFuel_connected stub n s h1 h2, ih]
        · rw [startLoopFuel_step stub n s h1 (by simpa using h2), ih]
          cases hst : stub s.conn.startCalls
          · rw [startIter_raiseExc]
          · rw [startIter_noConnect]
          · rw [startIter_connect]
      · rw [startLoopFuel_noop stub _ s (by simpa using h1)]

/-- Run of the loop against a hook that fails `K` times by returning without
connecting and then connects: the loop connects and clears `keep_connecting`,
performs no pause at all, and emits exactly one warn-level message per attempt
number divisible by 10 — where the attempt counter starts at `a` and counts
the final, successful attempt as well. -/
theorem startLoopFuel_noConn :
    ∀ (K : Nat) (c : Connector) (a : Nat) (w : List WarnKind) (sl : Nat),
      c.keep_connecting = true → c.is_connected = false →
      (startLoopFuel (noConnStub (c.startCalls + K)) (K + 2) ⟨c, a, w, sl⟩).conn.is_connected
          = true
      ∧ (startLoopFuel (noConnStub (c.startCalls + K)) (K + 2) ⟨c, a, w, sl⟩).conn.keep_connecting
          = false
      ∧ (startLoopFuel (noConnStub (c.startCalls + K)) (K + 2) ⟨c, a, w, sl⟩).warns.length
          = w.length + ((a + K + 1) / 10 - a / 10)
      ∧ (startLoopFuel (noConnStub (c.startCalls + K)) (K + 2) ⟨c, a, w, sl⟩).sleeps = sl := by
  intro K
  induction K with
  | zero =>
      intro c a w sl h1 h2
      have hstub : noConnStub (c.startCalls + 0) c.startCalls = StartOutcome.connect := by
        simp [noConnStub]
      have hfuel : (0 : Nat) + 2 = 1 + 1 := by omega
      rw [hfuel, startLoopFuel_step _ _ _ h1 h2]
      show (startLoopFuel _ 1 (startIter (noConnStub (c.startCalls + 0) c.startCalls) _)).conn.is_connected = true ∧ _
      rw [hstub, startIter_connect]
      rw [startLoopFuel_connected _ _ _ (by simpa using h1) rfl]
      rw [startLoopFuel_noop _ _ _ rfl]
      refine ⟨rfl, rfl, ?_, rfl⟩
      show (if (a + 1) % 10 = 0 then w ++ [WarnKind.couldNotConnect] else w).length
          = w.length + ((a + 0 + 1) / 10 - a / 10)
      by_cases h : (a + 1) % 10 = 0 <;> simp [h] <;> omega
  | succ K ih =>
      intro c a w sl h1 h2
      have hstub : noConnStub (c.startCalls + (K + 1)) c.startCalls = StartOutcome.noConnect := by
        unfold noConnStub
        rw [if_pos (by omega)]
      have hfuel : K + 1 + 2 = (K + 2) + 1 := by omega
      rw [hfuel, startLoopFuel_step _ _ _ h1 h2]
      show (startLoopFuel _ (K + 2)
              (startIter (noConnStub (c.startCalls + (K + 1)) c.startCalls) _)).conn.is_connected
            = true ∧ _
      rw [hstub, startIter_noConnect]
      have hthr : c.startCalls + (K + 1) = c.startCalls + 1 + K := by omega
      rw [hthr]
      have hIH := ih { c with startCalls := c.startCalls + 1 } (a + 1)
        (if (a + 1) % 10 = 0 then w ++ [WarnKind.couldNotConnect] else w) sl
        (by simpa using h1) (by simpa using h2)
      refine ⟨hIH.1, hIH.2.1, ?_, hIH.2.2.2⟩
      rw [hIH.2.2.1]
      by_cases h : (a + 1) % 10 = 0 <;> simp [h] <;> omega

/-- Run of the loop against a hook that fails `K` times by raising and then
connects: the loop connects and clears `keep_connecting`, pauses 2 seconds
after each of the `K` raising attempts, and emits one traceback warn per
raising attempt plus the rate-limited warn on every attempt number divisible
by 10. -/
theorem startLoopFuel_raise :
    ∀ (K : Nat) (c : Connector) (a : Nat) (w : List WarnKind) (sl : Nat),
      c.keep_connecting = true → c.is_connected = false →
      (startLoopFuel (raiseStub (c.startCalls + K)) (K + 2) ⟨c, a, w, sl⟩).conn.is_connected
          = true
      ∧ (startLoopFuel (raiseStub (c.startCalls + K)) (K + 2) ⟨c, a, w, sl⟩).conn.keep_connecting
          = false
      ∧ (startLoopFuel (raiseStub (c.startCalls + K)) (K + 2) ⟨c, a, w, sl⟩).warns.length
          = w.length + K + ((a + K + 1) / 10 - a / 10)
      ∧ (startLoopFuel (raiseStub (c.startCalls + K)) (K + 2) ⟨c, a, w, sl⟩).sleeps = sl + K := by
  intro K
  induction K with
  | zero =>
      intro c a w sl h1 h2
      have hstub : raiseStub (c.startCalls + 0) c.startCalls = StartOutcome.connect := by
        simp [raiseStub]
      have hfuel : (0 : Nat) + 2 = 1 + 1 := by omega
      rw [hfuel, startLoopFuel_step _ _ _ h1 h2]
      show (startLoopFuel _ 1 (startIter (raiseStub (c.startCalls + 0) c.startCalls) _)).conn.is_connected = true ∧ _
      rw [hstub, startIter_connect]
      rw [startLoopFuel_connected _ _ _ (by simpa using h1) rfl]
      rw [startLoopFuel_noop _ _ _ rfl]
      refine ⟨rfl, rfl, ?_, rfl⟩
      show (if (a + 1) % 10 = 0 then w ++ [WarnKind.couldNotConnect] else w).length
          = w.length + 0 + ((a + 0 + 1) / 10 - a / 10)
      by_cases h : (a + 1) % 10 = 0 <;> simp [h] <;> omega
  | succ K ih =>
      intro c a w sl h1 h2
      have hstub : raiseStub (c.startCalls + (K + 1)) c.startCalls = StartOutcome.raiseExc := by
        unfold raiseStub
        rw [if_pos (by omega)]
      have hfuel : K + 1 + 2 = (K + 2) + 1 := by omega
      rw [hfuel, startLoopFuel_step _ _ _ h1 h2]
      show (startLoopFuel _ (K + 2)
              (startIter (raiseStub (c.startCalls + (K + 1)) c.startCalls) _)).conn.is_connected
            = true ∧ _
      rw [hstub, startIter_raiseExc]
      have hthr : c.startCalls + (K + 1) = c.startCalls + 1 + K := by omega
      rw [hthr]
      have hIH := ih { c with startCalls := c.startCalls + 1 } (a + 1)
        (if (a + 1) % 10 = 0 then (w ++ [WarnKind.traceback]) ++ [WarnKind.couldNotConnect]
          else w ++ [WarnKind.traceback]) (sl + 1)
        (by simpa using h1) (by simpa using h2)
      refine ⟨hIH.1, hIH.2.1, ?_, ?_⟩
      · rw [hIH.2.2.1]
        by_cases h : (a + 1) % 10 = 0 <;> simp [h] <;> omega
      · rw [hIH.2.2.2]
        omega

/-- Run of the loop against a hook that always raises: after `fuel` attempts
the connector is still not connected, `keep_connecting` is still true, every
attempt paused 2 seconds, and the warn trace holds one traceback per attempt
plus the rate-limited warn on every attempt number divisible by 10.  No
exception escaped the loop: each one was caught by its `except Exception`
branch. -/
theorem startLoopFuel_allRaise :
    ∀ (fuel : Nat) (c : Connector) (a : Nat) (w : List WarnKind) (sl : Nat),
      c.keep_connecting = true → c.is_connected = false →
      (startLoopFuel alwaysRaise fuel ⟨c, a, w, sl⟩).conn.keep_connecting = true
      ∧ (startLoopFuel alwaysRaise fuel ⟨c, a, w, sl⟩).conn.is_connected = false
      ∧ (startLoopFuel alwaysRaise fuel ⟨c, a, w, sl⟩).warns.length
          = w.length + fuel + ((a + fuel) / 10 - a / 10)
      ∧ (startLoopFuel alwaysRaise fuel ⟨c, a, w, sl⟩).sleeps = sl + fuel := by
  intro fuel
  induction fuel with
  | zero =>
      intro c a w sl h1 h2
      simp only [startLoopFuel]
      exact ⟨h1, h2, by omega, by omega⟩
  | succ n ih =>
      intro c a w sl h1 h2
      rw [startLoopFuel_step _ _ _ h1 h2]
      show (startLoopFuel _ n (startIter (alwaysRaise c.startCalls) _)).conn.keep_connecting
            = true ∧ _
      rw [show alwaysRaise c.startCalls = StartOutcome.raiseExc from rfl, startIter_raiseExc]
      have hIH := ih { c with startCalls := c.startCalls + 1 } (a + 1)
        (if (a + 1) % 10 = 0 then (w ++ [WarnKind.traceback]) ++ [WarnKind.couldNotConnect]
          else w ++ [WarnKind.traceback]) (sl + 1)
        (by simpa using h1) (by simpa using h2)
      refine ⟨hIH.1, hIH.2.1, ?_, ?_⟩
      · rw [hIH.2.2.1]
        by_cases h : (a + 1) % 10 = 0 <;> simp [h] <;> omega
      · rw [hIH.2.2.2]
        omega

/-- Closed form of `Connector.restart`: since `stop` clears `keep_connecting`,
the subsequent `start` finds the loop guard false and only sets
`keep_running`; in particular the `_start` hook is never invoked. -/
theorem Connector.restart_eq (stub : Nat → StartOutcome) (fuel : Nat) (c : Connector) :
    Connector.restart stub fuel c =
      { c with keep_connecting := false, keep_running := true } := by
  unfold Connector.restart Connector.start Connector.stop
  rw [startLoopFuel_noop stub fuel _ rfl]

/-- Closed form of `Connector.edit`: rename, install the new config with
`prev_address` stashed, clear `keep_connecting` (from the restart's stop) and
set `keep_running` (from the restart's start); everything else — in particular
`is_active`, `is_inactive`, `objId`, `startCalls` — is untouched. -/
theorem Connector.edit_eq (stub : Nat → StartOutcome) (fuel : Nat)
    (old_name : String) (config : Config) (c : Connector) :
    Connector.edit stub fuel old_name config c =
      { c with name := config.name,
               config := { config with prev_address := some c.config.address },
               keep_connecting := false, keep_running := true } := by
  unfold Connector.edit
  rw [Connector.restart_eq]

/-! Lemmas about the registry dictionary. -/

/-- Looking up a key just inserted finds the inserted value. -/
theorem dictLookup_insert_self (k : String) (v : Connector) :
    ∀ m, dictLookup k (dictInsert k v m) = some v := by
  intro m
  induction m with
  | nil => simp [dictInsert, dictLookup]
  | cons p rest ih =>
      by_cases h : p.1 = k
      · simp [dictInsert, dictLookup, h]
      · simp [dictInsert, dictLookup, h, ih]

/-- Inserting under one key does not change lookups of a different key. -/
theorem dictLookup_insert_ne (k k₀ : String) (v : Connector) (h : k₀ ≠ k) :
    ∀ m, dictLookup k (dictInsert k₀ v m) = dictLookup k m := by
  intro m
  induction m with
  | nil => simp [dictInsert, dictLookup, h]
  | cons p rest ih =>
      by_cases hp : p.1 = k₀
      · simp [dictInsert, dictLookup, hp, h]
      · simp [dictInsert, dictLookup, hp, ih]

/-- Looking up a key just removed fails. -/
theorem dictLookup_remove_self (k : String) :
    ∀ m, dictLookup k (dictRemove k m) = none := by
  intro m
  induction m with
  | nil => rfl
  | cons p rest ih =>
      by_cases h : p.1 = k
      · have hb : (p.1 != k) = false := by simp [h]
        simpa [dictRemove, List.filter_cons, hb] using ih
      · have hb : (p.1 != k) = true := by simp [h]
        simpa [dictRemove, dictLookup, List.filter_cons, hb, h] using ih

/-! The claims. -/

/-- C1 (counterexample): the claim fails on the code as stated.  With a
connect hook that fails twice by raising and then succeeds (K = 2), the loop
does reach `is_connected = true`, but it emits 2 warn-level log messages —
`logger.warn(format_exc(e))` fires on every raising attempt, not only on every
10th consecutive failure — exceeding the claimed upper bound
`⌈K/10⌉ = (2 + 9) / 10 = 1`. -/
theorem C1_counterexample :
    cfgActive.is_active = true
    ∧ ((Connector.init 0 "alpha" "zmq" cfgActive).start (raiseStub 2) 4).conn.is_connected = true
    ∧ ((Connector.init 0 "alpha" "zmq" cfgActive).start (raiseStub 2) 4).warns.length = 2
    ∧ ¬ ((Connector.init 0 "alpha" "zmq" cfgActive).start (raiseStub 2) 4).warns.length
          ≤ (2 + 9) / 10 := by
  decide

/-- C1 (amended): in the reconnect loop entered by `Connector.start`, every
failed single connect attempt is caught without terminating the loop, but the
two failure modes behave differently: a raising attempt is logged at warn
level every time (with its traceback) and is followed by the fixed 2-second
pause, while an attempt that merely returns with `is_connected` still false is
not logged individually and is not followed by any pause; independently, a
rate-limited warn fires on every 10th attempt, the attempt counter including
the final successful attempt.  Consequently, for a connect stub that fails `K`
times by returning unconnected and then succeeds, `start` reaches
`is_connected = true` with no pause and exactly `⌊(K+1)/10⌋` warn messages — a
number between `⌊K/10⌋` and `⌈K/10⌉ = (K+9)/10` as the claim demands — whereas
for a stub that fails `K` times by raising and then succeeds, `start` reaches
`is_connected = true` with `K` pauses and `K + ⌊(K+1)/10⌋` warn messages. -/
theorem C1_amended (i : Nat) (nm ty : String) (cfg : Config) (K : Nat) :
    ((Connector.init i nm ty cfg).start (noConnStub K) (K + 2)).conn.is_connected = true
    ∧ ((Connector.init i nm ty cfg).start (noConnStub K) (K + 2)).warns.length = (K + 1) / 10
    ∧ ((Connector.init i nm ty cfg).start (noConnStub K) (K + 2)).sleeps = 0
    ∧ K / 10 ≤ (K + 1) / 10
    ∧ (K + 1) / 10 ≤ (K + 9) / 10
    ∧ ((Connector.init i nm ty cfg).start (raiseStub K) (K + 2)).conn.is_connected = true
    ∧ ((Connector.init i nm ty cfg).start (raiseStub K) (K + 2)).warns.length
        = K + (K + 1) / 10
    ∧ ((Connector.init i nm ty cfg).start (raiseStub K) (K + 2)).sleeps = K := by
  have hsc : ({ Connector.init i nm ty cfg with keep_running := true } : Connector).startCalls + K
      = K := by
    simp [Connector.init]
  have hn := startLoopFuel_noConn K { Connector.init i nm ty cfg with keep_running := true }
    0 [] 0 rfl rfl
  have hr := startLoopFuel_raise K { Connector.init i nm ty cfg with keep_running := true }
    0 [] 0 rfl rfl
  rw [hsc] at hn hr
  simp only [Connector.start]
  refine ⟨hn.1, ?_, hn.2.2.2, by omega, by omega, hr.1, ?_, ?_⟩
  · rw [hn.2.2.1]; simp only [List.length_nil]; omega
  · rw [hr.2.2.1]; simp only [List.length_nil]; omega
  · rw [hr.2.2.2]; omega

/-- Every `_start` invocation bumps the ghost counter by exactly one. -/
theorem startIter_startCalls (o : StartOutcome) (s : LoopSt) :
    (startIter o s).conn.startCalls = s.conn.startCalls + 1 := by
  cases o
  · rw [startIter_raiseExc]
  · rw [startIter_noConnect]
  · rw [startIter_connect]

/-- C2 (counterexample): the claim fails on the code as stated.  A connector
built from a config with `is_active = false`, when started, does invoke the
subclass connect hook: neither `start` nor `_start_loop` consults `is_active`,
so after one `start` with an immediately-connecting hook the ghost invocation
counter is 1, not 0. -/
theorem C2_counterexample :
    cfgInactive.is_active = false
    ∧ ((Connector.init 0 "beta" "zmq" cfgInactive).start
        (fun _ => StartOutcome.connect) 3).conn.startCalls = 1 := by
  decide

/-- C2 (amended): for every connector whose config has `is_active = false` at
construction, `send` always raises the Inactive condition; however, starting
the connector does invoke the subclass connect hook (at least once whenever
the loop is given at least one step of fuel): the start path contains no
inactivity check. -/
theorem C2_amended (i : Nat) (nm ty : String) (cfg : Config) (msg : String)
    (stub : Nat → StartOutcome) (fuel : Nat)
    (hcfg : cfg.is_active = false) (hfuel : 1 ≤ fuel) :
    (Connector.init i nm ty cfg).send msg = SendResult.inactive
    ∧ 1 ≤ ((Connector.init i nm ty cfg).start stub fuel).conn.startCalls := by
  constructor
  · simp [Connector.send, Connector.init, hcfg]
  · obtain ⟨f, rfl⟩ : ∃ f, fuel = f + 1 := ⟨fuel - 1, by omega⟩
    simp only [Connector.start]
    rw [startLoopFuel_step _ _ _ rfl rfl]
    refine Nat.le_trans ?_ (startLoopFuel_startCalls_le _ f _)
    rw [startIter_startCalls]
    omega

/-- C2 (witness): the amended claim at a concrete inactive config. -/
theorem C2_witness :
    (Connector.init 0 "beta" "zmq" cfgInactive).send "m" = SendResult.inactive
    ∧ 1 ≤ ((Connector.init 0 "beta" "zmq" cfgInactive).start alwaysRaise 1).conn.startCalls :=
  C2_amended 0 "beta" "zmq" cfgInactive "m" alwaysRaise 1 (by decide) (by decide)

/-- No lifecycle operation ever touches the `is_inactive` snapshot taken at
construction: in particular `edit` installs a new config without refreshing
it. -/
theorem applyOps_is_inactive (ops : List Op) :
    ∀ c : Connector, (applyOps ops c).is_inactive = c.is_inactive := by
  induction ops with
  | nil => intro c; rfl
  | cons op rest ih =>
      intro c
      show (applyOps rest (applyOp op c)).is_inactive = c.is_inactive
      rw [ih]
      cases op with
      | start stub fuel => exact startLoopFuel_is_inactive stub fuel _
      | stop => rfl
      | restart stub fuel =>
          show (Connector.restart stub fuel c).is_inactive = c.is_inactive
          rw [Connector.restart_eq]
      | edit stub fuel old config =>
          show (Connector.edit stub fuel old config c).is_inactive = c.is_inactive
          rw [Connector.edit_eq]

/-- C3 (counterexample): the claim fails on the code as stated.  A connector
constructed from an active config and then edited with a config whose
`is_active` is false ends up with a current config that has
`is_active = false`, yet `send` does not raise Inactive — it delegates the
message — because `send` tests the `is_inactive` snapshot taken in `__init__`,
which `_edit` never refreshes. -/
theorem C3_counterexample :
    (applyOps [Op.edit alwaysRaise 1 "alpha" cfgInactive]
        (Connector.init 0 "alpha" "zmq" cfgActive)).config.is_active = false
    ∧ (applyOps [Op.edit alwaysRaise 1 "alpha" cfgInactive]
        (Connector.init 0 "alpha" "zmq" cfgActive)).send "m" = SendResult.delegated "m" := by
  decide

/-- C3 (amended): for every connector and every message, after any sequence of
lifecycle operations (starts, stops, restarts and edits — including edits that
install configs with a different `is_active`), `send` raises the Inactive
condition if and only if the config the connector was constructed from had
`is_active = false`; otherwise it delegates the message to the subclass
transmission primitive.  The `is_inactive` flag is a construction-time
snapshot, so a config installed by a later edit has no effect on `send`'s
Inactive check.  (The per-connector lock is not modelled: executions are
sequential.) -/
theorem C3_amended (i : Nat) (nm ty : String) (cfg : Config) (ops : List Op) (msg : String) :
    (applyOps ops (Connector.init i nm ty cfg)).send msg
      = if cfg.is_active then SendResult.delegated msg else SendResult.inactive := by
  unfold Connector.send
  rw [applyOps_is_inactive]
  cases h : cfg.is_active <;> simp [Connector.init, h]

/-- C4 (counterexample): the claim fails on the code as stated.  `stop` has no
`try/except` bracket, so when the subclass `_stop` hook raises, the exception
propagates to `stop`'s caller (the second component is the
exception-propagated flag). -/
theorem C4_counterexample :
    ((Connector.init 0 "alpha" "zmq" cfgActive).stop true).2 = true := by
  decide

/-- C4 (amended): exceptions raised by the subclass connect hook are caught
inside the reconnect loop — each one is logged with its traceback and followed
by the 2-second pause — and never propagate: `start` returns normally even for
a hook that always raises, leaving `keep_connecting` true and `is_connected`
false after any number of attempts.  `stop`, however, has no exception
handler: an exception raised by the subclass `_stop` hook propagates to the
caller of `stop`, although `keep_connecting` and `keep_running` have already
been cleared by then. -/
theorem C4_amended (i : Nat) (nm ty : String) (cfg : Config) (fuel : Nat) (c : Connector) :
    ((Connector.init i nm ty cfg).start alwaysRaise fuel).conn.keep_connecting = true
    ∧ ((Connector.init i nm ty cfg).start alwaysRaise fuel).conn.is_connected = false
    ∧ ((Connector.init i nm ty cfg).start alwaysRaise fuel).sleeps = fuel
    ∧ ((Connector.init i nm ty cfg).start alwaysRaise fuel).warns.length = fuel + fuel / 10
    ∧ (Connector.stop true c).2 = true
    ∧ ((Connector.stop true c).1).keep_connecting = false
    ∧ ((Connector.stop true c).1).keep_running = false := by
  have h := startLoopFuel_allRaise fuel { Connector.init i nm ty cfg with keep_running := true }
    0 [] 0 rfl rfl
  simp only [Connector.start]
  refine ⟨h.1, h.2.1, ?_, ?_, rfl, rfl, rfl⟩
  · rw [h.2.2.2]; omega
  · rw [h.2.2.1]; simp only [List.length_nil]; omega

/-- C5 (counterexample): the claim fails on the code as stated.  A connector
that is connected stays connected across `stop()`: neither `stop` nor the
base-class `_stop` hook clears `is_connected`, so after stopping a connected
connector `is_connected` is still true. -/
theorem C5_counterexample :
    ((Connector.init 0 "alpha" "zmq" cfgActive).start (noConnStub 0) 2).conn.is_connected = true
    ∧ ((Connector.stop false
          ((Connector.init 0 "alpha" "zmq" cfgActive).start (noConnStub 0) 2).conn).1).is_connected
        = true := by
  decide

/-- C5 (amended): for every connector, after `stop()` returns the connector is
no longer running — `keep_running` is false, and `keep_connecting` is false
too — but `is_connected` is left exactly as it was before the stop: the base
class never clears the transport-level connected flag. -/
theorem C5_amended (c : Connector) (stopHookRaises : Bool) :
    ((Connector.stop stopHookRaises c).1).keep_running = false
    ∧ ((Connector.stop stopHookRaises c).1).keep_connecting = false
    ∧ ((Connector.stop stopHookRaises c).1).is_connected = c.is_connected :=
  ⟨rfl, rfl, rfl⟩

/-- `ConnectorStore.edit` when the old name is present: the looked-up
connector is edited and moved under the new key. -/
theorem ConnectorStore.edit_found (stub : Nat → StartOutcome) (fuel : Nat)
    (old_name : String) (config : Config) (st : ConnectorStore) (c : Connector)
    (hc : dictLookup old_name st.connectors = some c) :
    ConnectorStore.edit stub fuel old_name config st =
      Except.ok
        { st with
          connectors :=
            dictInsert config.name (Connector.edit stub fuel old_name config c)
              (dictRemove old_name st.connectors) } := by
  unfold ConnectorStore.edit
  rw [hc]

/-- C6 (confirmed): `keep_connecting` is set true only at construction and is
never reset to true by any operation — `start` either leaves it unchanged or
(on a successful connect) clears it, while `stop`, `restart` and `edit` always
leave it false; consequently, once it is false — after any `stop()` or after
one successful connect — every subsequent `start()` or `restart()` returns
without the reconnect loop body executing, i.e. without a single invocation of
the subclass connect hook (the ghost `startCalls` counter is unchanged). -/
theorem C6_keep_connecting_latch (i : Nat) (nm ty : String) (cfg : Config)
    (stub : Nat → StartOutcome) (fuel : Nat) (old_name : String) (config : Config)
    (c : Connector) (stopHookRaises : Bool) :
    (Connector.init i nm ty cfg).keep_connecting = true
    ∧ ((Connector.init i nm ty cfg).start (fun _ => StartOutcome.connect) 2).conn.keep_connecting
        = false
    ∧ ((Connector.start stub fuel c).conn.keep_connecting = true → c.keep_connecting = true)
    ∧ ((Connector.stop stopHookRaises c).1).keep_connecting = false
    ∧ (Connector.restart stub fuel c).keep_connecting = false
    ∧ (Connector.edit stub fuel old_name config c).keep_connecting = false
    ∧ (c.keep_connecting = false →
        Connector.start stub fuel c = ⟨{ c with keep_running := true }, 0, [], 0⟩)
    ∧ (Connector.restart stub fuel c).startCalls = c.startCalls
    ∧ (Connector.edit stub fuel old_name config c).startCalls = c.startCalls := by
  refine ⟨rfl, rfl, ?_, rfl, ?_, ?_, ?_, ?_, ?_⟩
  · intro h
    exact startLoopFuel_keep_connecting stub fuel _ h
  · rw [Connector.restart_eq]
  · rw [Connector.edit_eq]
  · intro h
    simp only [Connector.start]
    exact startLoopFuel_noop stub fuel _ (by simpa using h)
  · rw [Connector.restart_eq]
  · rw [Connector.edit_eq]

/-- C6 (witness): starting an already-stopped concrete connector leaves it
untouched — no hook call, no warn, no pause — except for `keep_running`. -/
theorem C6_witness :
    Connector.start alwaysRaise 5
        ((Connector.stop false (Connector.init 0 "alpha" "zmq" cfgActive)).1)
      = ⟨{ (Connector.stop false (Connector.init 0 "alpha" "zmq" cfgActive)).1
            with keep_running := true }, 0, [], 0⟩ :=
  (C6_keep_connecting_latch 0 "alpha" "zmq" cfgActive alwaysRaise 5 "x" cfgActive
      ((Connector.stop false (Connector.init 0 "alpha" "zmq" cfgActive)).1)
      false).2.2.2.2.2.2.1 (by decide)

/-- C7 (confirmed): for every store containing a connector under `old_name`
and every config carrying a different new name, `ConnectorStore.edit` returns
a store in which the old name is no longer found, the new name maps to the
same underlying instance (same ghost object identity), and that instance's
`name` and `config` fields carry the new config's values — with
`prev_address` stashed by the supervisor as the previously configured address;
when `old_name` is absent, `edit` fails with NotFound. -/
theorem C7_store_edit_rename (st : ConnectorStore) (stub : Nat → StartOutcome) (fuel : Nat)
    (old_name : String) (config : Config) :
    (∀ c, dictLookup old_name st.connectors = some c → config.name ≠ old_name →
      ∃ st', ConnectorStore.edit stub fuel old_name config st = Except.ok st'
        ∧ dictLookup old_name st'.connectors = none
        ∧ dictLookup config.name st'.connectors
            = some (Connector.edit stub fuel old_name config c)
        ∧ (Connector.edit stub fuel old_name config c).objId = c.objId
        ∧ (Connector.edit stub fuel old_name config c).name = config.name
        ∧ (Connector.edit stub fuel old_name config c).config.id = config.id
        ∧ (Connector.edit stub fuel old_name config c).config.name = config.name
        ∧ (Connector.edit stub fuel old_name config c).config.is_active = config.is_active
        ∧ (Connector.edit stub fuel old_name config c).config.address = config.address
        ∧ (Connector.edit stub fuel old_name config c).config.prev_address
            = some c.config.address)
    ∧ (dictLookup old_name st.connectors = none →
        ConnectorStore.edit stub fuel old_name config st = Except.error StoreErr.notFound) := by
  constructor
  · intro c hc hne
    refine ⟨_, ConnectorStore.edit_found stub fuel old_name config st c hc,
      ?_, ?_, ?_, ?_, ?_, ?_, ?_, ?_, ?_⟩
    · show dictLookup old_name
          (dictInsert config.name (Connector.edit stub fuel old_name config c)
            (dictRemove old_name st.connectors)) = none
      rw [dictLookup_insert_ne old_name config.name _ hne, dictLookup_remove_self]
    · show dictLookup config.name
          (dictInsert config.name (Connector.edit stub fuel old_name config c)
            (dictRemove old_name st.connectors))
          = some (Connector.edit stub fuel old_name config c)
      rw [dictLookup_insert_self]
    · rw [Connector.edit_eq]
    · rw [Connector.edit_eq]
    · rw [Connector.edit_eq]
    · rw [Connector.edit_eq]
    · rw [Connector.edit_eq]
    · rw [Connector.edit_eq]
    · rw [Connector.edit_eq]
  · intro h
    unfold ConnectorStore.edit
    rw [h]

/-- C7 (witness): the rename at a concrete one-entry store, from `"alpha"` to
`cfgInactive.name = "beta"`. -/
theorem C7_witness :
    ∃ st', ConnectorStore.edit alwaysRaise 1 "alpha" cfgInactive
        (ConnectorStore.create "alpha" cfgActive ⟨"zmq", [], 0⟩) = Except.ok st'
      ∧ dictLookup "alpha" st'.connectors = none
      ∧ dictLookup cfgInactive.name st'.connectors
          = some (Connector.edit alwaysRaise 1 "alpha" cfgInactive
              (Connector.init 0 "alpha" "zmq" cfgActive))
      ∧ (Connector.edit alwaysRaise 1 "alpha" cfgInactive
            (Connector.init 0 "alpha" "zmq" cfgActive)).objId
          = (Connector.init 0 "alpha" "zmq" cfgActive).objId
      ∧ (Connector.edit alwaysRaise 1 "alpha" cfgInactive
            (Connector.init 0 "alpha" "zmq" cfgActive)).name = cfgInactive.name
      ∧ (Connector.edit alwaysRaise 1 "alpha" cfgInactive
            (Connector.init 0 "alpha" "zmq" cfgActive)).config.id = cfgInactive.id
      ∧ (Connector.edit alwaysRaise 1 "alpha" cfgInactive
            (Connector.init 0 "alpha" "zmq" cfgActive)).config.name = cfgInactive.name
      ∧ (Connector.edit alwaysRaise 1 "alpha" cfgInactive
            (Connector.init 0 "alpha" "zmq" cfgActive)).config.is_active
          = cfgInactive.is_active
      ∧ (Connector.edit alwaysRaise 1 "alpha" cfgInactive
            (Connector.init 0 "alpha" "zmq" cfgActive)).config.address = cfgInactive.address
      ∧ (Connector.edit alwaysRaise 1 "alpha" cfgInactive
            (Connector.init 0 "alpha" "zmq" cfgActive)).config.prev_address
          = some (Connector.init 0 "alpha" "zmq" cfgActive).config.address :=
  (C7_store_edit_rename (ConnectorStore.create "alpha" cfgActive ⟨"zmq", [], 0⟩)
      alwaysRaise 1 "alpha" cfgInactive).1
    (Connector.init 0 "alpha" "zmq" cfgActive) (by decide) (by decide)

/-- C8 (confirmed): for every store, `delete` and `invoke` on an absent name
fail synchronously with NotFound and leave the registry unchanged (the
`KeyError` fires before any mutation); for a present name, `delete` stops the
connector (its running flags are cleared) and removes the entry, so a
subsequent `invoke` of that name fails with NotFound. -/
theorem C8_store_delete_invoke (st : ConnectorStore) (name : String) :
    (dictLookup name st.connectors = none →
      ConnectorStore.delete name st = (st, some StoreErr.notFound, none)
      ∧ ConnectorStore.invoke name st = Except.error StoreErr.notFound)
    ∧ (∀ c, dictLookup name st.connectors = some c →
      (ConnectorStore.delete name st).2.1 = none
      ∧ dictLookup name (ConnectorStore.delete name st).1.connectors = none
      ∧ ConnectorStore.invoke name (ConnectorStore.delete name st).1
          = Except.error StoreErr.notFound
      ∧ (ConnectorStore.delete name st).2.2 = some (Connector.stop false c).1
      ∧ ((Connector.stop false c).1).keep_running = false
      ∧ ((Connector.stop false c).1).keep_connecting = false) := by
  constructor
  · intro h
    constructor
    · unfold ConnectorStore.delete
      rw [h]
    · unfold ConnectorStore.invoke
      rw [h]
  · intro c hc
    have hdel : ConnectorStore.delete name st =
        ({ st with connectors := dictRemove name st.connectors }, none,
          some (Connector.stop false c).1) := by
      unfold ConnectorStore.delete
      rw [hc]
    rw [hdel]
    refine ⟨rfl, ?_, ?_, rfl, rfl, rfl⟩
    · simp only [dictLookup_remove_self]
    · show ConnectorStore.invoke name { st with connectors := dictRemove name st.connectors }
          = Except.error StoreErr.notFound
      unfold ConnectorStore.invoke
      rw [show dictLookup name
            ({ st with connectors := dictRemove name st.connectors } :
                ConnectorStore).connectors = none from dictLookup_remove_self name _]

/-- C8 (witness): the NotFound and delete-then-invoke behaviour at a concrete
one-entry store; `"gamma"` is absent, `"alpha"` is present. -/
theorem C8_witness :
    (ConnectorStore.delete "gamma" (ConnectorStore.create "alpha" cfgActive ⟨"zmq", [], 0⟩)
        = (ConnectorStore.create "alpha" cfgActive ⟨"zmq", [], 0⟩, some StoreErr.notFound, none)
      ∧ ConnectorStore.invoke "gamma" (ConnectorStore.create "alpha" cfgActive ⟨"zmq", [], 0⟩)
          = Except.error StoreErr.notFound)
    ∧ ((ConnectorStore.delete "alpha"
          (ConnectorStore.create "alpha" cfgActive ⟨"zmq", [], 0⟩)).2.1 = none
      ∧ dictLookup "alpha" (ConnectorStore.delete "alpha"
          (ConnectorStore.create "alpha" cfgActive ⟨"zmq", [], 0⟩)).1.connectors = none
      ∧ ConnectorStore.invoke "alpha" (ConnectorStore.delete "alpha"
          (ConnectorStore.create "alpha" cfgActive ⟨"zmq", [], 0⟩)).1
          = Except.error StoreErr.notFound
      ∧ (ConnectorStore.delete "alpha"
          (ConnectorStore.create "alpha" cfgActive ⟨"zmq", [], 0⟩)).2.2
          = some (Connector.stop false (Connector.init 0 "alpha" "zmq" cfgActive)).1
      ∧ ((Connector.stop false (Connector.init 0 "alpha" "zmq" cfgActive)).1).keep_running
          = false
      ∧ ((Connector.stop false (Connector.init 0 "alpha" "zmq" cfgActive)).1).keep_connecting
          = false) :=
  ⟨(C8_store_delete_invoke (ConnectorStore.create "alpha" cfgActive ⟨"zmq", [], 0⟩)
      "gamma").1 (by decide),
   (C8_store_delete_invoke (ConnectorStore.create "alpha" cfgActive ⟨"zmq", [], 0⟩)
      "alpha").2 (Connector.init 0 "alpha" "zmq" cfgActive) (by decide)⟩

/-- C9 (confirmed): with the base-class `_stop` hook, `stop()` never raises —
called twice in a row, or before any `start()` — it is idempotent, and
afterwards `keep_connecting` and `keep_running` are both false. -/
theorem C9_stop_idempotent (i : Nat) (nm ty : String) (cfg : Config) (c : Connector) :
    (Connector.stop false c).2 = false
    ∧ ((Connector.stop false c).1).keep_connecting = false
    ∧ ((Connector.stop false c).1).keep_running = false
    ∧ Connector.stop false (Connector.stop false c).1 = ((Connector.stop false c).1, false)
    ∧ (Connector.stop false (Connector.init i nm ty cfg)).2 = false
    ∧ ((Connector.stop false (Connector.init i nm ty cfg)).1).keep_connecting = false
    ∧ ((Connector.stop false (Connector.init i nm ty cfg)).1).keep_running = false := by
  exact ⟨rfl, rfl, rfl, rfl, rfl, rfl, rfl⟩

/-- C10 (confirmed): `ConnectorStore.create` always succeeds (it is a total
operation): it inserts a newly constructed connector of the store's class
under `name` — when an entry already exists under that name it is silently
overwritten by the new instance — and entries under every other name are
untouched. -/
theorem C10_create_overwrites (st : ConnectorStore) (name : String) (config : Config) :
    dictLookup name (ConnectorStore.create name config st).connectors
      = some (Connector.init st.nextId name st.type config)
    ∧ ∀ n, n ≠ name → dictLookup n (ConnectorStore.create name config st).connectors
        = dictLookup n st.connectors := by
  constructor
  · show dictLookup name
        (dictInsert name (Connector.init st.nextId name st.type config) st.connectors)
        = some (Connector.init st.nextId name st.type config)
    rw [dictLookup_insert_self]
  · intro n hn
    show dictLookup n
        (dictInsert name (Connector.init st.nextId name st.type config) st.connectors)
        = dictLookup n st.connectors
    rw [dictLookup_insert_ne n name _ (Ne.symm hn)]

/-- C10 (witness): creating `"alpha"` twice in a concrete store: the second
`create` silently overwrites the first (the lookup returns the freshly
constructed instance, with the new config and a new object identity), and a
lookup of an unrelated name is unchanged. -/
theorem C10_witness :
    dictLookup "alpha"
        (ConnectorStore.create "alpha" cfgInactive
          (ConnectorStore.create "alpha" cfgActive ⟨"zmq", [], 0⟩)).connectors
      = some (Connector.init
          (ConnectorStore.create "alpha" cfgActive ⟨"zmq", [], 0⟩).nextId "alpha"
          (ConnectorStore.create "alpha" cfgActive ⟨"zmq", [], 0⟩).type cfgInactive)
    ∧ dictLookup "beta"
        (ConnectorStore.create "alpha" cfgInactive
          (ConnectorStore.create "alpha" cfgActive ⟨"zmq", [], 0⟩)).connectors
      = dictLookup "beta"
          (ConnectorStore.create "alpha" cfgActive ⟨"zmq", [], 0⟩).connectors :=
  ⟨(C10_create_overwrites (ConnectorStore.create "alpha" cfgActive ⟨"zmq", [], 0⟩)
      "alpha" cfgInactive).1,
   (C10_create_overwrites (ConnectorStore.create "alpha" cfgActive ⟨"zmq", [], 0⟩)
      "alpha" cfgInactive).2 "beta" (by decide)⟩

end Zato
